import Mathlib

set_option maxHeartbeats 2000000

/- Shallow embedding of tools/backfill_health.py (Apple Health backfill engine).
   Calendar days are modelled by their ordinal number (a Nat); the Python code
   keys progress by day.isoformat(), which is an order isomorphism on days, so
   set membership and sorting behave identically.  Wall-clock durations and
   floating point telemetry fields are omitted: no claim depends on them. -/

/-- Python values as they occur in Health Auto Export metric dictionaries.
    pnum covers int and float (the isinstance check in build_points treats them
    alike and only the count of produced points matters to the engine);
    pnone is None; pother stands for truthy non-scalar objects. -/
inductive PyVal
  | pstr (s : String)
  | pnum (v : Int)
  | pnone
  | pother
deriving DecidableEq

/-- Python truthiness for the optional-value results of dict.get. -/
def pyTruthy : Option PyVal → Bool
  | none => false
  | some (PyVal.pstr s) => !s.isEmpty
  | some (PyVal.pnum v) => v != 0
  | some PyVal.pnone => false
  | some PyVal.pother => true

/-- A metric data point is a Python dict, modelled as an association list in
    insertion order (dict preserves insertion order, keys are unique). -/
abbrev DataPoint := List (String × PyVal)

/-- dict.get with no default (returns None when absent). -/
def pyLookup (dp : DataPoint) (k : String) : Option PyVal :=
  (dp.find? (fun kv => kv.1 == k)).map (fun kv => kv.2)

/-- The Python expression a or b: the first operand if truthy, else the second. -/
def pyGetOr (a b : Option PyVal) : Option PyVal :=
  if pyTruthy a then a else b

/-- Numeric value of two decimal digit characters (only used under isDigit guards). -/
def digit2 (a b : Char) : Nat :=
  (a.toNat - 48) * 10 + (b.toNat - 48)

/-- Models the acceptance condition of datetime.strptime with the format
    given in parse_timestamp, on its canonical spelling
    YYYY-MM-DD HH:MM:SS +-HHMM as produced by Health Auto Export. -/
def hae_format_ok (s : String) : Bool :=
  match s.toList with
  | [y1, y2, y3, y4, a1, mo1, mo2, a2, dd1, dd2, b1,
     h1, h2, c1, mi1, mi2, c2, se1, se2, b2, sg, z1, z2, z3, z4] =>
    ([y1, y2, y3, y4, mo1, mo2, dd1, dd2, h1, h2, mi1, mi2, se1, se2,
      z1, z2, z3, z4].all Char.isDigit) &&
    a1 == '-' && a2 == '-' && b1 == ' ' && c1 == ':' && c2 == ':' &&
    b2 == ' ' && (sg == '+' || sg == '-') &&
    decide (1 ≤ digit2 mo1 mo2) && decide (digit2 mo1 mo2 ≤ 12) &&
    decide (1 ≤ digit2 dd1 dd2) && decide (digit2 dd1 dd2 ≤ 31) &&
    decide (digit2 h1 h2 ≤ 23) && decide (digit2 mi1 mi2 ≤ 59) &&
    decide (digit2 se1 se2 ≤ 61)
  | _ => false

/-- Models the date-only happy path of the datetime.fromisoformat fallback. -/
def iso_format_ok (s : String) : Bool :=
  match s.toList with
  | [y1, y2, y3, y4, a1, mo1, mo2, a2, dd1, dd2] =>
    ([y1, y2, y3, y4, mo1, mo2, dd1, dd2].all Char.isDigit) &&
    a1 == '-' && a2 == '-' &&
    decide (1 ≤ digit2 mo1 mo2) && decide (digit2 mo1 mo2 ≤ 12) &&
    decide (1 ≤ digit2 dd1 dd2) && decide (digit2 dd1 dd2 ≤ 31)
  | _ => false

/-- Models whether parse_timestamp succeeds on a string (strptime with the HAE
    format, falling back to fromisoformat); a failure raises ValueError, which
    the caller build_points catches and turns into skipping the data point. -/
def parse_timestamp_ok (s : String) : Bool :=
  hae_format_ok s || iso_format_ok s

/-- One entry of the metrics list returned by the device; name and units model
    metric.get with their defaults applied at the access site. -/
structure HealthMetric where
  name : Option String
  units : Option String
  data : List DataPoint
deriving DecidableEq

def SKIP_FIELDS : List String := ["date", "source", "startDate"]

def STRING_FIELDS : List String :=
  ["inBedStart", "inBedEnd", "sleepStart", "sleepEnd", "value",
   "endDate", "start", "end", "context"]

/-- An InfluxDB point as assembled by build_points: measurement name, the raw
    timestamp string, tag pairs and numeric field pairs in insertion order. -/
structure BPoint where
  name : String
  time : String
  tags : List (String × PyVal)
  fields : List (String × PyVal)
deriving DecidableEq

/-- The per-key loop of build_points: collect string-field tags and numeric
    fields from a data point dict, in dict order. -/
def collectFields (dp : DataPoint) : List (String × PyVal) × List (String × PyVal) :=
  dp.foldl
    (fun acc kv =>
      if SKIP_FIELDS.contains kv.1 then acc
      else if STRING_FIELDS.contains kv.1 then
        match kv.2 with
        | PyVal.pstr s => (acc.1 ++ [(kv.1, PyVal.pstr s)], acc.2)
        | _ => acc
      else
        match kv.2 with
        | PyVal.pnum v => (acc.1, acc.2 ++ [(kv.1.toLower, PyVal.pnum v)])
        | _ => acc)
    ([], [])

/-- Builds the point for one data point dict, or none when the date is missing,
    unparseable, or no numeric field results (field_count = 0). -/
def buildPointFor (nm units : String) (dp : DataPoint) : Option BPoint :=
  let dateV := pyGetOr (pyLookup dp "date") (pyLookup dp "startDate")
  if pyTruthy dateV then
    match dateV with
    | some (PyVal.pstr ds) =>
      if parse_timestamp_ok ds then
        let srcV := pyLookup dp "source"
        let baseTags :=
          (if pyTruthy srcV then [("source", srcV.getD PyVal.pnone)] else []) ++
          (if units.isEmpty then [] else [("units", PyVal.pstr units)])
        let tf := collectFields dp
        if tf.2.isEmpty then none
        else some { name := nm, time := ds, tags := baseTags ++ tf.1, fields := tf.2 }
      else none
    | _ => none
  else none

/-- Convert Health Auto Export metrics into InfluxDB points (build_points). -/
def build_points (metrics : List HealthMetric) : List BPoint :=
  metrics.foldl
    (fun acc m =>
      acc ++ m.data.filterMap (buildPointFor (m.name.getD "unknown") (m.units.getD "")))
    []

/-- The inner payload of a wrapped-text content item: either the embedded JSON
    fails to parse (json.JSONDecodeError or AttributeError, both swallowed), or
    it yields the list at data.metrics (defaulting to the empty list). -/
inductive InnerText
  | badParse
  | metricsOf (ms : List HealthMetric)
deriving DecidableEq

/-- One element of result.content; text = none models a dict without a text
    key, on which the subscript item of the source raises KeyError. -/
structure ContentItem where
  itemType : Option PyVal
  text : Option InnerText
deriving DecidableEq

/-- A decoded JSON-RPC response document as seen by extract_metrics.
    hasError models the presence of an error key; content models
    result.get of content as a list (missing or non-list behaves as empty);
    resultData and topData are the metrics lists reachable at result.data and
    at the top-level data key, when those keys are present. -/
structure HaeResponse where
  hasError : Bool
  content : List ContentItem
  resultData : Option (List HealthMetric)
  topData : Option (List HealthMetric)
deriving DecidableEq

/-- Error classes recorded by write_error, named after the exception that
    reaches the day-level handlers of import_pass. -/
inductive ErrKind
  | rpcError
  | textKeyError
  | jsonDecodeError
  | networkError
deriving DecidableEq

/-- The content-scanning loop of extract_metrics: first wrapped-text item whose
    embedded payload yields a nonempty metrics list wins; parse failures are
    skipped; a text item without a text key raises KeyError. -/
def findMetricsInContent : List ContentItem → Except ErrKind (Option (List HealthMetric))
  | [] => Except.ok none
  | item :: rest =>
    if item.itemType == some (PyVal.pstr "text") then
      match item.text with
      | none => Except.error ErrKind.textKeyError
      | some InnerText.badParse => findMetricsInContent rest
      | some (InnerText.metricsOf ms) =>
        if ms.isEmpty then findMetricsInContent rest else Except.ok (some ms)
    else findMetricsInContent rest

/-- Extract metrics list from a JSON-RPC response (extract_metrics): an error
    envelope raises RuntimeError; otherwise the wrapped-text shape, the
    result.data shape and the top-level data shape are probed in order, and an
    empty record set is returned when none yields a nonempty list. -/
def extract_metrics (r : HaeResponse) : Except ErrKind (List HealthMetric) :=
  if r.hasError then Except.error ErrKind.rpcError
  else
    match findMetricsInContent r.content with
    | Except.error e => Except.error e
    | Except.ok (some ms) => Except.ok ms
    | Except.ok none =>
      match r.resultData with
      | some ms =>
        if !ms.isEmpty then Except.ok ms
        else
          match r.topData with
          | some ms2 => if !ms2.isEmpty then Except.ok ms2 else Except.ok []
          | none => Except.ok []
      | none =>
        match r.topData with
        | some ms2 => if !ms2.isEmpty then Except.ok ms2 else Except.ok []
        | none => Except.ok []

/-- Outcome of one attempt of query_health_metrics: a transport error
    (ConnectionRefusedError, socket.timeout, OSError), a response whose body is
    not valid JSON (json.loads raises), or a decoded response document. -/
inductive AttemptOutcome
  | transportFail
  | badJson
  | reply (r : HaeResponse)

/-- What a query_with_retry call produces for its caller: a transport error
    raised after the final attempt, a JSON decode error raised immediately
    (that exception class is not in the retry handler), or a response. -/
inductive QueryResult
  | netFail
  | parseFail
  | ok (r : HaeResponse)

/-- The attempt loop of query_with_retry, with the count of attempts still
    allowed as the recursion argument (remaining = retries - attempt, so the
    retry guard attempt < retries - 1 of the source is remaining > 1); the
    second component counts the attempts actually made.  For retries = 0 the
    Python loop body never runs and the function returns None, a configuration
    no call site uses (the engine always passes the default of 3); that dead
    case is modelled as a transport failure after zero attempts. -/
def query_with_retry_go (att : Nat → AttemptOutcome) (attempt : Nat) :
    Nat → QueryResult × Nat
  | 0 => (QueryResult.netFail, attempt)
  | remaining + 1 =>
    match att attempt with
    | AttemptOutcome.reply r => (QueryResult.ok r, attempt + 1)
    | AttemptOutcome.badJson => (QueryResult.parseFail, attempt + 1)
    | AttemptOutcome.transportFail =>
      if remaining = 0 then (QueryResult.netFail, attempt + 1)
      else query_with_retry_go att (attempt + 1) remaining

/-- Query with retry on connection errors (query_with_retry). -/
def query_with_retry (att : Nat → AttemptOutcome) (retries : Nat) : QueryResult × Nat :=
  query_with_retry_go att 0 retries

/-- Track which days have been imported (ProgressTracker); dirty models the
    private dirty flag. -/
structure ProgressTracker where
  completed : Finset Nat
  points_by_day : List (Nat × Nat)
  total_points : Nat
  dirty : Bool
deriving DecidableEq

/-- The state a freshly constructed ProgressTracker holds. -/
def tracker_init : ProgressTracker :=
  { completed := ∅, points_by_day := [], total_points := 0, dirty := false }

/-- The JSON document written by ProgressTracker.save. -/
structure ProgressFileDoc where
  completed_days : List Nat
  last_updated : String
  total_completed : Nat
  total_points : Nat
  points_by_day : List (Nat × Nat)
deriving DecidableEq

/-- Key comparison used to model the sorted call on dict items (keys unique). -/
def keyLe (a b : Nat × Nat) : Bool := a.1 ≤ b.1

/-- The document ProgressTracker.save serializes: completed days sorted,
    a wall-clock last_updated string supplied by the caller, the counts, and
    points_by_day in key order. -/
def ProgressTracker.save_doc (t : ProgressTracker) (now : String) : ProgressFileDoc :=
  { completed_days := t.completed.sort (· ≤ ·)
    last_updated := now
    total_completed := t.completed.card
    total_points := t.total_points
    points_by_day := t.points_by_day.mergeSort keyLe }

/-- ProgressTracker.load: the argument models whether the progress file exists
    and, when it does, the document it decodes to.  On a present file the three
    persisted data fields are assigned; on an absent file only a log line is
    emitted and the state is untouched. -/
def ProgressTracker.load (t : ProgressTracker) (file : Option ProgressFileDoc) :
    ProgressTracker :=
  match file with
  | some d =>
    { t with
      completed := d.completed_days.toFinset
      points_by_day := d.points_by_day
      total_points := d.total_points }
  | none => t

/-- Python dict assignment on an association list: replace in place when the
    key is present, append otherwise. -/
def assocSet : List (Nat × Nat) → Nat → Nat → List (Nat × Nat)
  | [], k, v => [(k, v)]
  | kv :: rest, k, v =>
    if kv.1 = k then (k, v) :: rest else kv :: assocSet rest k v

/-- ProgressTracker.mark_completed: add the day to the completed set, and only
    for a positive count record it and accumulate the total; always mark dirty. -/
def mark_completed (t : ProgressTracker) (day : Nat) (points : Nat) : ProgressTracker :=
  let t1 := { t with completed := insert day t.completed }
  let t2 :=
    if 0 < points then
      { t1 with
        points_by_day := assocSet t1.points_by_day day points
        total_points := t1.total_points + points }
    else t1
  { t2 with dirty := true }

/-- ProgressTracker.is_completed. -/
def is_completed (t : ProgressTracker) (day : Nat) : Bool :=
  decide (day ∈ t.completed)

/-- File-system operations, for stating what ProgressTracker.save does to
    stable storage. -/
inductive FsOp
  | mkdirParents (dir : String)
  | writeTextFile (path : String) (doc : ProgressFileDoc)
  | renameFile (src dst : String)
deriving DecidableEq

/-- The directory component of a path (Path.parent on POSIX strings). -/
def parentDir (p : String) : String :=
  String.intercalate "/" ((p.splitOn "/").dropLast)

/-- The sequence of file-system operations ProgressTracker.save performs:
    create the parent directory, then one direct write_text of the serialized
    document to the progress-file path. -/
def ProgressTracker.save_ops (t : ProgressTracker) (path now : String) : List FsOp :=
  [FsOp.mkdirParents (parentDir path),
   FsOp.writeTextFile path (ProgressTracker.save_doc t now)]

/-- Whether one operation writes file contents at the target path itself. -/
def isWriteTo (target : String) : FsOp → Bool
  | FsOp.writeTextFile p _ => p == target
  | _ => false

/-- Whether one operation installs the target path via a rename. -/
def isRenameTo (target : String) : FsOp → Bool
  | FsOp.renameFile _ dst => dst == target
  | _ => false

/-- Whether an operation trace writes file contents at the target path itself. -/
def writesDirectlyTo (ops : List FsOp) (target : String) : Bool :=
  ops.any (isWriteTo target)

/-- Whether an operation trace installs the target path via a rename. -/
def renamesOnto (ops : List FsOp) (target : String) : Bool :=
  ops.any (isRenameTo target)

/-- Modelled from the spec: an atomic replace of the progress file writes only
    to a temporary location and installs the target path with a rename, so no
    partially-written file is ever visible at the target path. -/
def atomicReplaceSave (ops : List FsOp) (target : String) : Prop :=
  writesDirectlyTo ops target = false ∧ renamesOnto ops target = true

/-- Yield each date from end to start inclusive, newest first
    (date_range_reverse); empty when end precedes start. -/
def date_range_reverse (startDay endDay : Nat) : List Nat :=
  (List.range (endDay + 1 - startDay)).map (fun i => endDay - i)

/-- Telemetry events written to InfluxDB; duration and percentage fields are
    wall-clock or floating point quantities and are omitted. -/
inductive TeleEvent
  | dayStat (day : Nat) (points : Nat)
  | progress (completedCount : Nat) (remaining : Nat) (totalPoints : Nat)
  | connectivity (online : Bool)
  | dayError (day : Nat) (kind : ErrKind)
deriving DecidableEq

/-- The configuration import_pass reads from args, plus the determinized
    interrupt schedule: the global interrupted flag is set asynchronously by
    the SIGINT handler and only ever goes from false to true, so a run is
    characterized by how many flag reads happen before it turns true
    (interruptAfter = none means no signal arrives). -/
structure PassConfig where
  startDay : Nat
  endDay : Nat
  dryRun : Bool
  delayPos : Bool
  interruptAfter : Option Nat
  nowStr : String

/-- The query environment: for a given day, window index and attempt number,
    what the device interaction produces. -/
abbrev QueryEnv := Nat → Nat → Nat → AttemptOutcome

/-- The mutable state of one import_pass, including the observable traces
    (queries made with their attempt counts, sink writes, telemetry events,
    progress-file snapshots). -/
structure PassState where
  tracker : ProgressTracker
  daysImported : Nat
  totalPoints : Nat
  consecutive : Nat
  phoneLost : Bool
  checks : Nat
  queries : List (Nat × Nat × Nat)
  sink : List (Nat × Nat × List BPoint)
  telemetry : List TeleEvent
  savedDocs : List ProgressFileDoc

/-- The state at the top of import_pass for a given tracker. -/
def initPassState (t : ProgressTracker) : PassState :=
  { tracker := t, daysImported := 0, totalPoints := 0, consecutive := 0,
    phoneLost := false, checks := 0, queries := [], sink := [],
    telemetry := [], savedDocs := [] }

/-- One read of the interrupted flag at a checkpoint: its current value, and
    the state with the read counted. -/
def readFlag (cfg : PassConfig) (st : PassState) : Bool × PassState :=
  (match cfg.interruptAfter with
   | some k => decide (k ≤ st.checks)
   | none => false,
   { st with checks := st.checks + 1 })

/-- Telemetry of write_error, suppressed in dry-run mode. -/
def errorEvents (cfg : PassConfig) (day : Nat) (k : ErrKind) : List TeleEvent :=
  if cfg.dryRun then [] else [TeleEvent.dayError day k]

/-- Telemetry of write_connectivity, suppressed in dry-run mode. -/
def connectivityEvents (cfg : PassConfig) (online : Bool) : List TeleEvent :=
  if cfg.dryRun then [] else [TeleEvent.connectivity online]

/-- Telemetry of write_telemetry after a completed day (backfill_day then
    backfill_progress), suppressed in dry-run mode; totalDays is the length of
    the full date range, as computed at the top of import_pass. -/
def dayTelemetry (cfg : PassConfig) (t : ProgressTracker) (day dayPts totalDays : Nat) :
    List TeleEvent :=
  if cfg.dryRun then []
  else
    [TeleEvent.dayStat day dayPts,
     TeleEvent.progress t.completed.card (totalDays - t.completed.card) t.total_points]

/-- ProgressTracker.save as performed inside the engine: append the serialized
    snapshot to the persisted trace and clear the dirty flag (save_if_dirty). -/
def passSaveIfDirty (cfg : PassConfig) (st : PassState) : PassState :=
  if st.tracker.dirty then
    { st with
      tracker := { st.tracker with dirty := false }
      savedDocs := st.savedDocs ++ [ProgressTracker.save_doc st.tracker cfg.nowStr] }
  else st

/-- The tail of each day-loop iteration: save progress if dirty, then the
    inter-request delay, whose guard reads the interrupted flag only when the
    configured delay is positive (the conjunction short-circuits). -/
def afterDay (cfg : PassConfig) (st : PassState) : PassState :=
  let st1 := passSaveIfDirty cfg st
  if cfg.delayPos then (readFlag cfg st1).2 else st1

/-- How the window loop of a day ends: falling out of the for statement (all
    windows done, or the cooperative break on the interrupted flag — both
    continue into mark_completed), a transport error raised out of
    query_with_retry, or any other exception (JSON decode failure, RuntimeError
    on an error envelope, KeyError on a text item without text). -/
inductive WindowExit
  | fellThrough
  | netErrorExit
  | dayErrorExit (k : ErrKind)
deriving DecidableEq

/-- The four fixed 6-hour windows each day is split into. -/
def windowSpecs : List (Nat × Nat × Nat × Nat × Nat × Nat) :=
  [(0, 0, 0, 5, 59, 59), (6, 0, 0, 11, 59, 59),
   (12, 0, 0, 17, 59, 59), (18, 0, 0, 23, 59, 59)]

/-- The window indices the day loop iterates, addressing windowSpecs. -/
def windowIdxs : List Nat := [0, 1, 2, 3]

/-- Two-digit zero padding of hour, minute and second components. -/
def pad2 (n : Nat) : String :=
  if n < 10 then "0" ++ toString n else toString n

/-- Format a date and time into HAE timestamp format (format_hae_timestamp);
    the date component is the ordinal day number. -/
def format_hae_timestamp (d h m s : Nat) (tz : String) : String :=
  toString d ++ " " ++ pad2 h ++ ":" ++ pad2 m ++ ":" ++ pad2 s ++ " " ++ tz

/-- The inner window loop of import_pass for one day: check the interrupted
    flag, query with retry (3 attempts, the call-site default), extract and
    convert the metrics, write nonempty point batches to the sink unless in
    dry-run, accumulate the day point count, and reset the consecutive
    network-failure counter after every successful window.  Exceptions abort
    the loop with the corresponding exit. -/
def runWindows (env : QueryEnv) (cfg : PassConfig) (day : Nat) :
    PassState → Nat → List Nat → PassState × Nat × WindowExit
  | st, dayPts, [] => (st, dayPts, WindowExit.fellThrough)
  | st, dayPts, w :: rest =>
    let fl := readFlag cfg st
    if fl.1 then (fl.2, dayPts, WindowExit.fellThrough)
    else
      let q := query_with_retry (env day w) 3
      let st2 := { fl.2 with queries := fl.2.queries ++ [(day, w, q.2)] }
      match q.1 with
      | QueryResult.netFail => (st2, dayPts, WindowExit.netErrorExit)
      | QueryResult.parseFail => (st2, dayPts, WindowExit.dayErrorExit ErrKind.jsonDecodeError)
      | QueryResult.ok r =>
        match extract_metrics r with
        | Except.error e => (st2, dayPts, WindowExit.dayErrorExit e)
        | Except.ok ms =>
          let pts := build_points ms
          let st3 :=
            if !pts.isEmpty && !cfg.dryRun then
              { st2 with sink := st2.sink ++ [(day, w, pts)] }
            else st2
          let st4 := { st3 with consecutive := 0 }
          runWindows env cfg day st4 (dayPts + pts.length) rest

/-- Whether the day loop continues with the next day or breaks out of the pass. -/
inductive DayExit
  | nextDay
  | stopPass
deriving DecidableEq

/-- One iteration body of the day loop of import_pass, after the loop-top
    interrupt check: run the four windows; on fall-through mark the day
    completed and emit day telemetry; on a transport error bump the
    consecutive-failure counter, record the error, and at three failures flag
    the phone as lost, emit the offline connectivity event and break out of
    the pass; on any other exception record the error and continue.  All paths
    that do not break also run the save-if-dirty and delay tail. -/
def processDay (env : QueryEnv) (cfg : PassConfig) (totalDays day : Nat)
    (st : PassState) : PassState × DayExit :=
  match runWindows env cfg day st 0 windowIdxs with
  | (st1, dayPts, WindowExit.fellThrough) =>
    let tr := mark_completed st1.tracker day dayPts
    let st2 :=
      { st1 with
        tracker := tr
        daysImported := st1.daysImported + 1
        totalPoints := st1.totalPoints + dayPts
        telemetry := st1.telemetry ++ dayTelemetry cfg tr day dayPts totalDays }
    (afterDay cfg st2, DayExit.nextDay)
  | (st1, _, WindowExit.netErrorExit) =>
    let cnt := st1.consecutive + 1
    let st2 :=
      { st1 with
        consecutive := cnt
        telemetry := st1.telemetry ++ errorEvents cfg day ErrKind.networkError }
    if 3 ≤ cnt then
      ({ st2 with
         phoneLost := true
         telemetry := st2.telemetry ++ connectivityEvents cfg false },
       DayExit.stopPass)
    else (afterDay cfg st2, DayExit.nextDay)
  | (st1, _, WindowExit.dayErrorExit k) =>
    let st2 := { st1 with telemetry := st1.telemetry ++ errorEvents cfg day k }
    (afterDay cfg st2, DayExit.nextDay)

/-- The day loop of import_pass over the remaining days: read the interrupted
    flag at the loop top (break when set), then run the day body, stopping the
    whole loop when it reports the network-loss break. -/
def runDays (env : QueryEnv) (cfg : PassConfig) (totalDays : Nat) :
    List Nat → PassState → PassState
  | [], st => st
  | day :: rest, st =>
    let fl := readFlag cfg st
    if fl.1 then fl.2
    else
      match processDay env cfg totalDays day fl.2 with
      | (st2, DayExit.stopPass) => st2
      | (st2, DayExit.nextDay) => runDays env cfg totalDays rest st2

/-- The remaining-day list of a pass: the full range newest first, with the
    already-completed days skipped. -/
def remainingDays (cfg : PassConfig) (t : ProgressTracker) : List Nat :=
  (date_range_reverse cfg.startDay cfg.endDay).filter (fun d => !is_completed t d)

/-- Run one import pass over remaining days (import_pass).  When nothing
    remains it returns immediately; otherwise it runs the day loop and, in the
    finally block, saves progress if dirty. -/
def import_pass (env : QueryEnv) (cfg : PassConfig) (t : ProgressTracker) : PassState :=
  let allDays := date_range_reverse cfg.startDay cfg.endDay
  let remaining := remainingDays cfg t
  if remaining.isEmpty then initPassState t
  else passSaveIfDirty cfg (runDays env cfg allDays.length remaining (initPassState t))

/-- The tuple import_pass returns to its caller:
    days imported, points written, the consecutive network-failure counter at
    the end, and the phone-lost flag. -/
def import_pass_result (st : PassState) : Nat × Nat × Nat × Bool :=
  (st.daysImported, st.totalPoints, st.consecutive, st.phoneLost)

/-- What the daemon loop in main does right after a pass returns: stop on the
    interrupted flag, go back to probing when the phone was lost, stop
    declaring the backfill complete when zero days were imported, and
    otherwise sleep and loop. -/
inductive DaemonStep
  | stopInterrupted
  | retryAfterLoss
  | stopComplete
  | sleepAndLoop
deriving DecidableEq

/-- The branch structure of the daemon loop after import_pass returns
    (main, daemon mode). -/
def daemon_decision (interrupted phoneLost : Bool) (daysImported : Nat) : DaemonStep :=
  if interrupted then DaemonStep.stopInterrupted
  else if phoneLost then DaemonStep.retryAfterLoss
  else if daysImported = 0 then DaemonStep.stopComplete
  else DaemonStep.sleepAndLoop

/-- A data point with a parseable HAE timestamp and one numeric field; every
    such point survives build_points. -/
def sampleDp : DataPoint :=
  [("date", PyVal.pstr "2024-01-01 10:00:00 +0000"), ("qty", PyVal.pnum 72)]

/-- A heart-rate metric carrying n copies of the sample data point. -/
def sampleMetric (n : Nat) : HealthMetric :=
  { name := some "heart_rate", units := some "bpm", data := List.replicate n sampleDp }

/-- A direct-format response whose result.data.metrics list yields n points. -/
def okReply (n : Nat) : HaeResponse :=
  { hasError := false, content := [], resultData := some [sampleMetric n], topData := none }

/-- A well-formed JSON-RPC error envelope. -/
def errReply : HaeResponse :=
  { hasError := true, content := [], resultData := none, topData := none }

/-- A response whose only content item is wrapped text that fails to parse. -/
def innerBadReply : HaeResponse :=
  { hasError := false,
    content := [{ itemType := some (PyVal.pstr "text"), text := some InnerText.badParse }],
    resultData := none, topData := none }

/-- A pass configuration over the inclusive day range s..e with the source
    defaults: a positive inter-request delay, no dry run, no signal. -/
def cfgRange (s e : Nat) : PassConfig :=
  { startDay := s, endDay := e, dryRun := false, delayPos := true,
    interruptAfter := none, nowStr := "t" }

/-- The scenario of the claim: windows 1 and 2 of the single day succeed with
    10 and 5 points, window 3 times out on every attempt. -/
def envC1 : QueryEnv := fun _ w _ =>
  if w = 0 then AttemptOutcome.reply (okReply 10)
  else if w = 1 then AttemptOutcome.reply (okReply 5)
  else AttemptOutcome.transportFail

/-- Every query of every day times out, except day 0 which would succeed. -/
def envAllFailButDay0 : QueryEnv := fun d _ _ =>
  if d = 0 then AttemptOutcome.reply (okReply 1) else AttemptOutcome.transportFail

/-- Day 1 window 1 succeeds, every other query times out: exercises the reset
    of the consecutive-failure counter. -/
def envResetDemo : QueryEnv := fun d w _ =>
  if d = 1 ∧ w = 0 then AttemptOutcome.reply (okReply 2) else AttemptOutcome.transportFail

/-- Every query succeeds with 10 points. -/
def envAllOk10 : QueryEnv := fun _ _ _ => AttemptOutcome.reply (okReply 10)

/-- Every query times out on every attempt. -/
def envAllTransport : QueryEnv := fun _ _ _ => AttemptOutcome.transportFail

/-- Single-day configuration in which the interrupt signal arrives after two
    flag reads, that is between the first and the second window of the day. -/
def cfgInt : PassConfig := { cfgRange 0 0 with interruptAfter := some 2 }

/-- Every query returns a well-formed error envelope. -/
def envErrEnvelope : QueryEnv := fun _ _ _ => AttemptOutcome.reply errReply

/-- Window 1 returns a malformed document; the later windows would succeed. -/
def envBadJsonW0 : QueryEnv := fun _ w _ =>
  if w = 0 then AttemptOutcome.badJson else AttemptOutcome.reply (okReply 3)

/-- Window 1 returns wrapped text whose payload fails to parse; the later
    windows succeed with empty record sets. -/
def envInnerBadW0 : QueryEnv := fun _ w _ =>
  if w = 0 then AttemptOutcome.reply innerBadReply else AttemptOutcome.reply (okReply 0)

/-- A tracker holding progress from an earlier pass: day 3 completed with 7
    points. -/
def trackerSeeded : ProgressTracker :=
  { completed := {3}, points_by_day := [(3, 7)], total_points := 7, dirty := false }

/-- A pass state whose consecutive network-failure counter already stands at 2. -/
def stCons2 : PassState := { initPassState tracker_init with consecutive := 2 }

/-- C3 counterexample: the claim asserts ProgressTracker.save writes to a
    temporary location and renames (or equivalently never exposes a partial
    file at the target); the operation trace of save at a concrete state and
    path has no rename and writes the target path directly. -/
theorem c3_counterexample :
    ¬ atomicReplaceSave
        (ProgressTracker.save_ops tracker_init "data/import_progress.json" "t")
        "data/import_progress.json" := by
  unfold atomicReplaceSave
  decide

/-- C3 amended: save serializes the full state and rewrites the progress file
    after every mutated day via save-if-dirty, but it does so with one direct
    write_text to the progress-file path, no temporary file and no rename, so
    the atomic-replace guarantee of the claim does not hold. -/
theorem c3_amended (t : ProgressTracker) (path now : String) (cfg : PassConfig)
    (st : PassState) :
    ProgressTracker.save_ops t path now =
      [FsOp.mkdirParents (parentDir path),
       FsOp.writeTextFile path (ProgressTracker.save_doc t now)] ∧
    writesDirectlyTo (ProgressTracker.save_ops t path now) path = true ∧
    renamesOnto (ProgressTracker.save_ops t path now) path = false ∧
    (passSaveIfDirty cfg st).savedDocs =
      st.savedDocs ++
        (if st.tracker.dirty then [ProgressTracker.save_doc st.tracker cfg.nowStr]
         else []) := by
  refine ⟨rfl, ?_, rfl, ?_⟩
  · simp [writesDirectlyTo, ProgressTracker.save_ops, isWriteTo]
  · by_cases h : st.tracker.dirty <;> simp [passSaveIfDirty, h]

/-- C8: saving a tracker state and loading the resulting document back yields
    an equal completed set and an equal total point count. -/
theorem c8_round_trip (t u : ProgressTracker) (now : String) :
    (ProgressTracker.load u (some (ProgressTracker.save_doc t now))).completed =
      t.completed ∧
    (ProgressTracker.load u (some (ProgressTracker.save_doc t now))).total_points =
      t.total_points := by
  constructor
  · show (t.completed.sort (· ≤ ·)).toFinset = t.completed
    exact Finset.sort_toFinset _ _
  · rfl

/-- C9 counterexample: the claim asserts load on an absent progress file
    initializes empty state for every tracker state; on a tracker already
    holding progress, load with the file absent leaves it non-empty. -/
theorem c9_counterexample :
    ¬ ((ProgressTracker.load trackerSeeded none).completed = ∅ ∧
       (ProgressTracker.load trackerSeeded none).points_by_day = [] ∧
       (ProgressTracker.load trackerSeeded none).total_points = 0) := by
  decide

/-- C9 amended: load on an absent progress file never fails and leaves the
    in-memory state exactly as it was; since a freshly constructed tracker is
    empty, the first load of a run yields empty state, but a per-pass reload
    that finds the file absent keeps the previous in-memory progress rather
    than resetting it. -/
theorem c9_amended (t : ProgressTracker) :
    ProgressTracker.load t none = t ∧
    (ProgressTracker.load tracker_init none).completed = ∅ ∧
    (ProgressTracker.load tracker_init none).points_by_day = [] ∧
    (ProgressTracker.load tracker_init none).total_points = 0 :=
  ⟨rfl, rfl, rfl, rfl⟩

/-- C10: marking a day completed with zero points adds the day to the
    completed set and sets the dirty flag while leaving points_by_day and
    total_points unchanged; hence a completed day need not appear in
    points_by_day, as the concrete instance shows. -/
theorem c10_mark_zero_points (t : ProgressTracker) (day : Nat) :
    (mark_completed t day 0).completed = insert day t.completed ∧
    (mark_completed t day 0).points_by_day = t.points_by_day ∧
    (mark_completed t day 0).total_points = t.total_points ∧
    (mark_completed t day 0).dirty = true ∧
    day ∈ (mark_completed t day 0).completed ∧
    (mark_completed tracker_init 7 0).completed = {7} ∧
    (mark_completed tracker_init 7 0).points_by_day = [] := by
  refine ⟨rfl, rfl, rfl, rfl, ?_, by decide, rfl⟩
  show day ∈ insert day t.completed
  exact Finset.mem_insert_self day t.completed

/-- C1 counterexample: in the claimed scenario (one-day range, windows 1 and 2
    succeed with 10 and 5 points, window 3 times out on its 3 attempts) the
    pass does NOT end with network_lost = true: the counter reaches only 1,
    because a transport error aborts the day at its first failing window and
    the counter advances once per failed day, not once per failed window. -/
theorem c1_counterexample :
    (import_pass envC1 (cfgRange 0 0) tracker_init).phoneLost = false ∧
    (import_pass envC1 (cfgRange 0 0) tracker_init).daysImported = 0 ∧
    (import_pass envC1 (cfgRange 0 0) tracker_init).consecutive = 1 ∧
    0 ∉ (import_pass envC1 (cfgRange 0 0) tracker_init).tracker.completed ∧
    (import_pass envC1 (cfgRange 0 0) tracker_init).queries =
      [(0, 0, 1), (0, 1, 1), (0, 2, 3)] ∧
    ((import_pass envC1 (cfgRange 0 0) tracker_init).sink.map
        (fun e => (e.1, e.2.1, e.2.2.length))) = [(0, 0, 10), (0, 1, 5)] := by
  decide

/-- C2: code behavior at the failing input.  With every window succeeding and
    the interrupt signal arriving between window 1 and window 2 of the single
    day, the engine breaks out of the window loop after one window yet still
    marks the day completed: only one query was made, but the day enters the
    completed set and the pass reports one day imported. -/
theorem c2_interrupt_marks_partial_day :
    (import_pass envAllOk10 cfgInt tracker_init).queries = [(0, 0, 1)] ∧
    (import_pass envAllOk10 cfgInt tracker_init).tracker.completed = {0} ∧
    (import_pass envAllOk10 cfgInt tracker_init).tracker.points_by_day = [(0, 10)] ∧
    import_pass_result (import_pass envAllOk10 cfgInt tracker_init) =
      (1, 10, 0, false) ∧
    (import_pass envAllOk10 cfgInt tracker_init).savedDocs.length = 1 := by
  decide

/-- C4: code behavior at the failing input.  With a one-day range whose only
    day fails on a protocol error every pass, import_pass returns zero days
    imported and no network loss while the day is still missing from the
    completed set, and the daemon branch taken on that return value is the
    successful stop that declares the backfill complete. -/
theorem c4_daemon_stops_with_days_remaining :
    import_pass_result (import_pass envErrEnvelope (cfgRange 0 0) tracker_init) =
      (0, 0, 0, false) ∧
    (import_pass envErrEnvelope (cfgRange 0 0) tracker_init).tracker.completed = ∅ ∧
    remainingDays (cfgRange 0 0)
      (import_pass envErrEnvelope (cfgRange 0 0) tracker_init).tracker = [0] ∧
    daemon_decision false false 0 = DaemonStep.stopComplete := by
  decide

/-- C5 counterexample: the claim asserts a window whose response is a
    malformed document is treated as an empty result with the remaining
    windows of the day still processed; when window 1 of the single day
    returns a body that is not valid JSON, the day is aborted instead: windows
    2 to 4 are never queried, the day is recorded as an error and is not
    marked completed. -/
theorem c5_counterexample :
    (import_pass envBadJsonW0 (cfgRange 0 0) tracker_init).queries = [(0, 0, 1)] ∧
    (import_pass envBadJsonW0 (cfgRange 0 0) tracker_init).daysImported = 0 ∧
    0 ∉ (import_pass envBadJsonW0 (cfgRange 0 0) tracker_init).tracker.completed ∧
    (import_pass envBadJsonW0 (cfgRange 0 0) tracker_init).telemetry =
      [TeleEvent.dayError 0 ErrKind.jsonDecodeError] := by
  decide

/-- The state fields the window loop of a day never touches, together with the
    shape of what it appends to the query and sink traces: every appended
    entry belongs to the day being processed. -/
def ExtendsBy (day : Nat) (st stp : PassState) : Prop :=
  stp.tracker = st.tracker ∧
  stp.phoneLost = st.phoneLost ∧
  stp.daysImported = st.daysImported ∧
  stp.totalPoints = st.totalPoints ∧
  stp.telemetry = st.telemetry ∧
  stp.savedDocs = st.savedDocs ∧
  (∃ qe, stp.queries = st.queries ++ qe ∧ ∀ e ∈ qe, e.1 = day) ∧
  (∃ se, stp.sink = st.sink ++ se ∧ ∀ e ∈ se, e.1 = day)

theorem extendsBy_refl (day : Nat) (st : PassState) : ExtendsBy day st st :=
  ⟨rfl, rfl, rfl, rfl, rfl, rfl, ⟨[], by simp⟩, ⟨[], by simp⟩⟩

theorem extendsBy_trans {day : Nat} {s1 s2 s3 : PassState}
    (h1 : ExtendsBy day s1 s2) (h2 : ExtendsBy day s2 s3) : ExtendsBy day s1 s3 := by
  obtain ⟨t1, p1, d1, tp1, te1, sd1, ⟨q1, hq1, hq1d⟩, ⟨k1, hk1, hk1d⟩⟩ := h1
  obtain ⟨t2, p2, d2, tp2, te2, sd2, ⟨q2, hq2, hq2d⟩, ⟨k2, hk2, hk2d⟩⟩ := h2
  refine ⟨t2.trans t1, p2.trans p1, d2.trans d1, tp2.trans tp1, te2.trans te1,
    sd2.trans sd1, ⟨q1 ++ q2, ?_, ?_⟩, ⟨k1 ++ k2, ?_, ?_⟩⟩
  · rw [hq2, hq1, List.append_assoc]
  · intro e he
    rcases List.mem_append.1 he with h | h
    · exact hq1d e h
    · exact hq2d e h
  · rw [hk2, hk1, List.append_assoc]
  · intro e he
    rcases List.mem_append.1 he with h | h
    · exact hk1d e h
    · exact hk2d e h

theorem readFlag_snd_extends (cfg : PassConfig) (day : Nat) (st : PassState) :
    ExtendsBy day st (readFlag cfg st).2 := by
  refine ⟨rfl, rfl, rfl, rfl, rfl, rfl, ⟨[], by simp [readFlag]⟩, ⟨[], by simp [readFlag]⟩⟩

/-- The save-and-delay tail of a day-loop iteration changes only the tracker
    dirty bit, the saved-document trace and the check counter. -/
theorem afterDay_fields (cfg : PassConfig) (st : PassState) :
    (afterDay cfg st).tracker.completed = st.tracker.completed ∧
    (afterDay cfg st).tracker.points_by_day = st.tracker.points_by_day ∧
    (afterDay cfg st).tracker.total_points = st.tracker.total_points ∧
    (afterDay cfg st).queries = st.queries ∧
    (afterDay cfg st).sink = st.sink ∧
    (afterDay cfg st).telemetry = st.telemetry ∧
    (afterDay cfg st).consecutive = st.consecutive ∧
    (afterDay cfg st).phoneLost = st.phoneLost ∧
    (afterDay cfg st).daysImported = st.daysImported ∧
    (afterDay cfg st).totalPoints = st.totalPoints := by
  unfold afterDay passSaveIfDirty readFlag
  by_cases h : st.tracker.dirty <;> by_cases h2 : cfg.delayPos <;> simp [h, h2]

/-- The window loop of a day leaves the tracker, counters and telemetry alone
    and appends only entries of that day to the query and sink traces. -/
theorem runWindows_extends (env : QueryEnv) (cfg : PassConfig) (day : Nat) :
    ∀ (ws : List Nat) (st : PassState) (dayPts : Nat),
      ExtendsBy day st (runWindows env cfg day st dayPts ws).1 := by
  intro ws
  induction ws with
  | nil =>
    intro st dayPts
    simpa [runWindows] using extendsBy_refl day st
  | cons w rest ih =>
    intro st dayPts
    simp only [runWindows]
    by_cases hf : (readFlag cfg st).1 = true
    · rw [if_pos hf]
      exact readFlag_snd_extends cfg day st
    · rw [if_neg hf]
      split
      · refine ⟨rfl, rfl, rfl, rfl, rfl, rfl,
          ⟨[(day, w, (query_with_retry (env day w) 3).2)], by simp [readFlag], by simp⟩,
          ⟨[], by simp [readFlag]⟩⟩
      · refine ⟨rfl, rfl, rfl, rfl, rfl, rfl,
          ⟨[(day, w, (query_with_retry (env day w) 3).2)], by simp [readFlag], by simp⟩,
          ⟨[], by simp [readFlag]⟩⟩
      · split
        · refine ⟨rfl, rfl, rfl, rfl, rfl, rfl,
            ⟨[(day, w, (query_with_retry (env day w) 3).2)], by simp [readFlag], by simp⟩,
            ⟨[], by simp [readFlag]⟩⟩
        · rename_i ms hx
          refine extendsBy_trans ?_ (ih _ _)
          by_cases hw : (!(build_points ms).isEmpty && !cfg.dryRun) = true
          · rw [if_pos hw]
            refine ⟨rfl, rfl, rfl, rfl, rfl, rfl,
              ⟨[(day, w, (query_with_retry (env day w) 3).2)], by simp [readFlag], by simp⟩,
              ⟨[(day, w, build_points ms)], by simp [readFlag], by simp⟩⟩
          · rw [if_neg hw]
            refine ⟨rfl, rfl, rfl, rfl, rfl, rfl,
              ⟨[(day, w, (query_with_retry (env day w) 3).2)], by simp [readFlag], by simp⟩,
              ⟨[], by simp [readFlag]⟩⟩

/-- The day body on a non-network exception, written out: record the error and
    run the save-and-delay tail, continuing with the next day. -/
theorem processDay_dayError_eq (env : QueryEnv) (cfg : PassConfig) (totalDays day : Nat)
    (st stW : PassState) (pts : Nat) (k : ErrKind)
    (h : runWindows env cfg day st 0 windowIdxs = (stW, pts, WindowExit.dayErrorExit k)) :
    processDay env cfg totalDays day st =
      (afterDay cfg { stW with telemetry := stW.telemetry ++ errorEvents cfg day k },
       DayExit.nextDay) := by
  unfold processDay
  rw [h]

/-- The day body on a transport error, written out: bump the counter, record
    the error, and either break with the phone-lost flag at three consecutive
    failures or run the tail and continue. -/
theorem processDay_netError_eq (env : QueryEnv) (cfg : PassConfig) (totalDays day : Nat)
    (st stW : PassState) (pts : Nat)
    (h : runWindows env cfg day st 0 windowIdxs = (stW, pts, WindowExit.netErrorExit)) :
    processDay env cfg totalDays day st =
      (if 3 ≤ stW.consecutive + 1 then
        ({ stW with
            consecutive := stW.consecutive + 1
            phoneLost := true
            telemetry := (stW.telemetry ++ errorEvents cfg day ErrKind.networkError) ++
              connectivityEvents cfg false },
         DayExit.stopPass)
      else
        (afterDay cfg
          { stW with
              consecutive := stW.consecutive + 1
              telemetry := stW.telemetry ++ errorEvents cfg day ErrKind.networkError },
         DayExit.nextDay)) := by
  unfold processDay
  rw [h]

/-- The day body on fall-through, written out: mark the day completed with the
    accumulated points, bump the imported counters, emit day telemetry, and
    run the save-and-delay tail. -/
theorem processDay_fellThrough_eq (env : QueryEnv) (cfg : PassConfig)
    (totalDays day : Nat) (st stW : PassState) (pts : Nat)
    (h : runWindows env cfg day st 0 windowIdxs = (stW, pts, WindowExit.fellThrough)) :
    processDay env cfg totalDays day st =
      (afterDay cfg
        { stW with
            tracker := mark_completed stW.tracker day pts
            daysImported := stW.daysImported + 1
            totalPoints := stW.totalPoints + pts
            telemetry := stW.telemetry ++
              dayTelemetry cfg (mark_completed stW.tracker day pts) day pts totalDays },
       DayExit.nextDay) := by
  unfold processDay
  rw [h]

/-- When the window loop of a day raises a non-network exception, the day body
    records the error and continues: the day is not marked completed, the
    consecutive network-failure counter is not incremented, the phone-lost
    flag and the imported-day count are untouched. -/
theorem processDay_dayError (env : QueryEnv) (cfg : PassConfig) (totalDays day : Nat)
    (st stW : PassState) (pts : Nat) (k : ErrKind)
    (h : runWindows env cfg day st 0 windowIdxs = (stW, pts, WindowExit.dayErrorExit k)) :
    (processDay env cfg totalDays day st).2 = DayExit.nextDay ∧
    (processDay env cfg totalDays day st).1.tracker.completed = st.tracker.completed ∧
    (processDay env cfg totalDays day st).1.consecutive = stW.consecutive ∧
    (processDay env cfg totalDays day st).1.phoneLost = st.phoneLost ∧
    (processDay env cfg totalDays day st).1.daysImported = st.daysImported ∧
    (processDay env cfg totalDays day st).1.telemetry =
      stW.telemetry ++ errorEvents cfg day k := by
  have hext := runWindows_extends env cfg day windowIdxs st 0
  rw [h] at hext
  obtain ⟨ht, hp, hd, _, _, _, _, _⟩ := hext
  obtain ⟨hc, _, _, hq, hs, hte, hcons, hpl, hdi, _⟩ :=
    afterDay_fields cfg { stW with telemetry := stW.telemetry ++ errorEvents cfg day k }
  rw [processDay_dayError_eq env cfg totalDays day st stW pts k h]
  exact ⟨rfl, hc.trans (congrArg ProgressTracker.completed ht), hcons,
    hpl.trans hp, hdi.trans hd, hte⟩

/-- When the window loop of a day raises a transport error, the day body bumps
    the consecutive network-failure counter by one, does not mark the day
    completed, and breaks out of the pass with the phone-lost flag exactly
    when the counter reaches 3. -/
theorem processDay_netError (env : QueryEnv) (cfg : PassConfig) (totalDays day : Nat)
    (st stW : PassState) (pts : Nat)
    (h : runWindows env cfg day st 0 windowIdxs = (stW, pts, WindowExit.netErrorExit)) :
    (processDay env cfg totalDays day st).1.consecutive = stW.consecutive + 1 ∧
    (processDay env cfg totalDays day st).1.tracker.completed = st.tracker.completed ∧
    (processDay env cfg totalDays day st).1.daysImported = st.daysImported ∧
    (3 ≤ stW.consecutive + 1 →
      (processDay env cfg totalDays day st).2 = DayExit.stopPass ∧
      (processDay env cfg totalDays day st).1.phoneLost = true) ∧
    (stW.consecutive + 1 < 3 →
      (processDay env cfg totalDays day st).2 = DayExit.nextDay ∧
      (processDay env cfg totalDays day st).1.phoneLost = st.phoneLost) := by
  have hext := runWindows_extends env cfg day windowIdxs st 0
  rw [h] at hext
  obtain ⟨ht, hp, hd, _, _, _, _, _⟩ := hext
  obtain ⟨hc, _, _, hq, hs, hte, hcons, hpl, hdi, _⟩ :=
    afterDay_fields cfg
      { stW with
        consecutive := stW.consecutive + 1
        telemetry := stW.telemetry ++ errorEvents cfg day ErrKind.networkError }
  rw [processDay_netError_eq env cfg totalDays day st stW pts h]
  by_cases h3 : 3 ≤ stW.consecutive + 1
  · rw [if_pos h3]
    exact ⟨rfl, congrArg ProgressTracker.completed ht, hd,
      fun _ => ⟨rfl, rfl⟩, fun h' => absurd h3 (by omega)⟩
  · rw [if_neg h3]
    exact ⟨hcons, hc.trans (congrArg ProgressTracker.completed ht), hdi.trans hd,
      fun h' => absurd h' h3, fun _ => ⟨rfl, hpl.trans hp⟩⟩

/-- One day-loop body appends only query and sink entries of its own day. -/
theorem processDay_trace (env : QueryEnv) (cfg : PassConfig) (totalDays day : Nat)
    (st : PassState) :
    ∃ qe se,
      (processDay env cfg totalDays day st).1.queries = st.queries ++ qe ∧
      (processDay env cfg totalDays day st).1.sink = st.sink ++ se ∧
      (∀ e ∈ qe, e.1 = day) ∧ (∀ e ∈ se, e.1 = day) := by
  rcases h : runWindows env cfg day st 0 windowIdxs with ⟨st1, pts, ex⟩
  have hext := runWindows_extends env cfg day windowIdxs st 0
  rw [h] at hext
  obtain ⟨_, _, _, _, _, _, ⟨qe, hqe, hqed⟩, ⟨se, hse, hsed⟩⟩ := hext
  refine ⟨qe, se, ?_, ?_, hqed, hsed⟩ <;> cases ex
  · rw [processDay_fellThrough_eq env cfg totalDays day st st1 pts h]
    exact ((afterDay_fields cfg _).2.2.2.1).trans hqe
  · rw [processDay_netError_eq env cfg totalDays day st st1 pts h]
    by_cases h3 : 3 ≤ st1.consecutive + 1
    · rw [if_pos h3]; exact hqe
    · rw [if_neg h3]; exact ((afterDay_fields cfg _).2.2.2.1).trans hqe
  · rw [processDay_dayError_eq env cfg totalDays day st st1 pts _ h]
    exact ((afterDay_fields cfg _).2.2.2.1).trans hqe
  · rw [processDay_fellThrough_eq env cfg totalDays day st st1 pts h]
    exact ((afterDay_fields cfg _).2.2.2.2.1).trans hse
  · rw [processDay_netError_eq env cfg totalDays day st st1 pts h]
    by_cases h3 : 3 ≤ st1.consecutive + 1
    · rw [if_pos h3]; exact hse
    · rw [if_neg h3]; exact ((afterDay_fields cfg _).2.2.2.2.1).trans hse
  · rw [processDay_dayError_eq env cfg totalDays day st st1 pts _ h]
    exact ((afterDay_fields cfg _).2.2.2.2.1).trans hse

/-- The day loop appends only query and sink entries of the processed days,
    and when the day list is strictly decreasing the appended entries come out
    grouped newest first. -/
theorem runDays_trace (env : QueryEnv) (cfg : PassConfig) (totalDays : Nat) :
    ∀ (days : List Nat) (st : PassState), List.Pairwise (· > ·) days →
      ∃ qe se,
        (runDays env cfg totalDays days st).queries = st.queries ++ qe ∧
        (runDays env cfg totalDays days st).sink = st.sink ++ se ∧
        (∀ e ∈ qe, e.1 ∈ days) ∧ (∀ e ∈ se, e.1 ∈ days) ∧
        List.Pairwise (fun a b => b.1 ≤ a.1) qe ∧
        List.Pairwise (fun a b => b.1 ≤ a.1) se := by
  intro days
  induction days with
  | nil =>
    intro st _
    exact ⟨[], [], by simp [runDays], by simp [runDays], by simp, by simp,
      List.Pairwise.nil, List.Pairwise.nil⟩
  | cons d rest ih =>
    intro st hp
    have hd : ∀ x ∈ rest, d > x := (List.pairwise_cons.1 hp).1
    have hrest := (List.pairwise_cons.1 hp).2
    simp only [runDays]
    by_cases hf : (readFlag cfg st).1 = true
    · rw [if_pos hf]
      exact ⟨[], [], by simp [readFlag], by simp [readFlag], by simp, by simp,
        List.Pairwise.nil, List.Pairwise.nil⟩
    · rw [if_neg hf]
      obtain ⟨qe1, se1, hq1, hs1, hq1d, hs1d⟩ :=
        processDay_trace env cfg totalDays d (readFlag cfg st).2
      rcases hpd : processDay env cfg totalDays d (readFlag cfg st).2 with ⟨st2, ex⟩
      rw [hpd] at hq1 hs1
      have hq1' : st2.queries = st.queries ++ qe1 := hq1
      have hs1' : st2.sink = st.sink ++ se1 := hs1
      cases ex with
      | stopPass =>
        refine ⟨qe1, se1, hq1', hs1', ?_, ?_, ?_, ?_⟩
        · exact fun e he => by rw [hq1d e he]; exact List.mem_cons_self d rest
        · exact fun e he => by rw [hs1d e he]; exact List.mem_cons_self d rest
        · exact List.pairwise_of_forall_mem_list
            (fun a ha b hb => by rw [hq1d b hb, hq1d a ha])
        · exact List.pairwise_of_forall_mem_list
            (fun a ha b hb => by rw [hs1d b hb, hs1d a ha])
      | nextDay =>
        obtain ⟨qe2, se2, hq2, hs2, hq2d, hs2d, hq2p, hs2p⟩ := ih st2 hrest
        refine ⟨qe1 ++ qe2, se1 ++ se2, ?_, ?_, ?_, ?_, ?_, ?_⟩
        · show (runDays env cfg totalDays rest st2).queries =
            st.queries ++ (qe1 ++ qe2)
          rw [hq2, hq1', List.append_assoc]
        · show (runDays env cfg totalDays rest st2).sink = st.sink ++ (se1 ++ se2)
          rw [hs2, hs1', List.append_assoc]
        · intro e he
          rcases List.mem_append.1 he with h | h
          · rw [hq1d e h]; exact List.mem_cons_self d rest
          · exact List.mem_cons_of_mem d (hq2d e h)
        · intro e he
          rcases List.mem_append.1 he with h | h
          · rw [hs1d e h]; exact List.mem_cons_self d rest
          · exact List.mem_cons_of_mem d (hs2d e h)
        · refine List.pairwise_append.2 ⟨?_, hq2p, ?_⟩
          · exact List.pairwise_of_forall_mem_list
              (fun a ha b hb => by rw [hq1d b hb, hq1d a ha])
          · intro a ha b hb
            rw [hq1d a ha]
            exact le_of_lt (hd b.1 (hq2d b hb))
        · refine List.pairwise_append.2 ⟨?_, hs2p, ?_⟩
          · exact List.pairwise_of_forall_mem_list
              (fun a ha b hb => by rw [hs1d b hb, hs1d a ha])
          · intro a ha b hb
            rw [hs1d a ha]
            exact le_of_lt (hd b.1 (hs2d b hb))

/-- Membership in the reverse date range is the inclusive interval. -/
theorem date_range_reverse_mem (s e d : Nat) :
    d ∈ date_range_reverse s e ↔ s ≤ d ∧ d ≤ e := by
  unfold date_range_reverse
  simp only [List.mem_map, List.mem_range]
  constructor
  · rintro ⟨i, hi, rfl⟩
    omega
  · rintro ⟨h1, h2⟩
    exact ⟨e - d, by omega, by omega⟩

/-- The reverse date range is strictly decreasing: newest first. -/
theorem date_range_reverse_pairwise (s e : Nat) :
    List.Pairwise (· > ·) (date_range_reverse s e) := by
  unfold date_range_reverse
  rw [List.pairwise_map]
  refine List.Pairwise.imp_of_mem ?_ (List.pairwise_lt_range _)
  intro i j hi hj hij
  rw [List.mem_range] at hi hj
  omega

/-- The remaining-day list of a pass is strictly decreasing. -/
theorem remainingDays_pairwise (cfg : PassConfig) (t : ProgressTracker) :
    List.Pairwise (· > ·) (remainingDays cfg t) :=
  List.Pairwise.sublist (List.filter_sublist _)
    (date_range_reverse_pairwise cfg.startDay cfg.endDay)

/-- A day is in the remaining list exactly when it lies in the range and is
    not yet marked completed. -/
theorem remainingDays_mem (cfg : PassConfig) (t : ProgressTracker) (d : Nat) :
    d ∈ remainingDays cfg t ↔
      cfg.startDay ≤ d ∧ d ≤ cfg.endDay ∧ d ∉ t.completed := by
  unfold remainingDays
  rw [List.mem_filter, date_range_reverse_mem]
  simp [is_completed, and_assoc]

theorem passSaveIfDirty_queries (cfg : PassConfig) (st : PassState) :
    (passSaveIfDirty cfg st).queries = st.queries := by
  unfold passSaveIfDirty
  split <;> rfl

theorem passSaveIfDirty_sink (cfg : PassConfig) (st : PassState) :
    (passSaveIfDirty cfg st).sink = st.sink := by
  unfold passSaveIfDirty
  split <;> rfl

/-- C7: a pass only ever queries and writes days of the configured range that
    the given tracker has not marked completed, and the day components of both
    traces are in newest-first (non-increasing) order. -/
theorem c7_newest_first (env : QueryEnv) (cfg : PassConfig) (t : ProgressTracker) :
    (∀ e ∈ (import_pass env cfg t).queries,
       cfg.startDay ≤ e.1 ∧ e.1 ≤ cfg.endDay ∧ e.1 ∉ t.completed) ∧
    (∀ e ∈ (import_pass env cfg t).sink,
       cfg.startDay ≤ e.1 ∧ e.1 ≤ cfg.endDay ∧ e.1 ∉ t.completed) ∧
    List.Pairwise (fun a b => b.1 ≤ a.1) (import_pass env cfg t).queries ∧
    List.Pairwise (fun a b => b.1 ≤ a.1) (import_pass env cfg t).sink := by
  unfold import_pass
  by_cases hrem : (remainingDays cfg t).isEmpty = true
  · rw [if_pos hrem]
    exact ⟨by simp [initPassState], by simp [initPassState],
      List.Pairwise.nil, List.Pairwise.nil⟩
  · rw [if_neg hrem]
    obtain ⟨qe, se, hq, hs, hqd, hsd, hqp, hsp⟩ :=
      runDays_trace env cfg (date_range_reverse cfg.startDay cfg.endDay).length
        (remainingDays cfg t) (initPassState t) (remainingDays_pairwise cfg t)
    have hq' : (runDays env cfg (date_range_reverse cfg.startDay cfg.endDay).length
        (remainingDays cfg t) (initPassState t)).queries = qe := by
      rw [hq]; rfl
    have hs' : (runDays env cfg (date_range_reverse cfg.startDay cfg.endDay).length
        (remainingDays cfg t) (initPassState t)).sink = se := by
      rw [hs]; rfl
    rw [passSaveIfDirty_queries, passSaveIfDirty_sink, hq', hs']
    refine ⟨?_, ?_, hqp, hsp⟩
    · exact fun e he => (remainingDays_mem cfg t e.1).1 (hqd e he)
    · exact fun e he => (remainingDays_mem cfg t e.1).1 (hsd e he)

/-- C6: a well-formed error envelope is surfaced out of the current window
    immediately after a single attempt (the retry loop retries only transport
    errors) with no sink write and no change to the consecutive-failure
    counter, and the day body then records a day error, leaves the completed
    set, the counter, the phone-lost flag and the imported-day count
    untouched, and continues with the next day. -/
theorem c6_protocol_error (env : QueryEnv) (cfg : PassConfig)
    (totalDays day dayPts : Nat) (st : PassState) (w : Nat) (rest : List Nat)
    (r : HaeResponse) (hflag : cfg.interruptAfter = none)
    (hq0 : env day w 0 = AttemptOutcome.reply r) (herr : r.hasError = true) :
    runWindows env cfg day st dayPts (w :: rest) =
      ({ st with checks := st.checks + 1, queries := st.queries ++ [(day, w, 1)] },
       dayPts, WindowExit.dayErrorExit ErrKind.rpcError) ∧
    (∀ (stW : PassState) (pts : Nat) (k : ErrKind),
      runWindows env cfg day st 0 windowIdxs = (stW, pts, WindowExit.dayErrorExit k) →
      (processDay env cfg totalDays day st).2 = DayExit.nextDay ∧
      (processDay env cfg totalDays day st).1.tracker.completed =
        st.tracker.completed ∧
      (processDay env cfg totalDays day st).1.consecutive = stW.consecutive ∧
      (processDay env cfg totalDays day st).1.phoneLost = st.phoneLost ∧
      (processDay env cfg totalDays day st).1.daysImported = st.daysImported ∧
      (processDay env cfg totalDays day st).1.telemetry =
        stW.telemetry ++ errorEvents cfg day k) := by
  constructor
  · have hqr : query_with_retry (env day w) 3 = (QueryResult.ok r, 1) := by
      unfold query_with_retry query_with_retry_go
      rw [hq0]
    have hx : extract_metrics r = Except.error ErrKind.rpcError := by
      unfold extract_metrics
      rw [if_pos herr]
    simp [runWindows, readFlag, hflag, hqr, hx]
  · intro stW pts k hrw
    exact processDay_dayError env cfg totalDays day st stW pts k hrw

/-- C6 witness: the protocol-error day behavior at a concrete input. -/
theorem c6_protocol_error_witness :
    runWindows envErrEnvelope (cfgRange 0 0) 0 (initPassState tracker_init) 0
        [0, 1, 2, 3] =
      ({ initPassState tracker_init with checks := 1, queries := [(0, 0, 1)] },
       0, WindowExit.dayErrorExit ErrKind.rpcError) ∧
    (processDay envErrEnvelope (cfgRange 0 0) 1 0 (initPassState tracker_init)).2 =
      DayExit.nextDay ∧
    (processDay envErrEnvelope (cfgRange 0 0) 1 0
        (initPassState tracker_init)).1.tracker.completed = ∅ := by
  have h := c6_protocol_error envErrEnvelope (cfgRange 0 0) 1 0 0
    (initPassState tracker_init) 0 [1, 2, 3] errReply rfl rfl rfl
  have h2 := h.2 { initPassState tracker_init with checks := 1, queries := [(0, 0, 1)] }
    0 ErrKind.rpcError h.1
  exact ⟨h.1, h2.1, h2.2.1⟩

/-- C5 amended: only a parse failure of the wrapped text payload inside a
    content item is treated as an empty result with the pass moving on within
    the day; a response whose body is not valid JSON at the top level raises
    out of the retry loop without further attempts and aborts the whole day,
    which is recorded as an error, left out of the completed set, and skipped
    until the next pass while the pass itself continues. -/
theorem c5_amended :
    extract_metrics innerBadReply = Except.ok [] ∧
    ((import_pass envInnerBadW0 (cfgRange 0 0) tracker_init).tracker.completed =
        {0} ∧
     (import_pass envInnerBadW0 (cfgRange 0 0) tracker_init).daysImported = 1 ∧
     (import_pass envInnerBadW0 (cfgRange 0 0) tracker_init).queries =
       [(0, 0, 1), (0, 1, 1), (0, 2, 1), (0, 3, 1)]) ∧
    (∀ (env : QueryEnv) (cfg : PassConfig) (totalDays day : Nat)
        (st stW : PassState) (pts : Nat),
      runWindows env cfg day st 0 windowIdxs =
          (stW, pts, WindowExit.dayErrorExit ErrKind.jsonDecodeError) →
      (processDay env cfg totalDays day st).2 = DayExit.nextDay ∧
      (processDay env cfg totalDays day st).1.tracker.completed =
        st.tracker.completed ∧
      (processDay env cfg totalDays day st).1.phoneLost = st.phoneLost ∧
      (processDay env cfg totalDays day st).1.telemetry =
        stW.telemetry ++ errorEvents cfg day ErrKind.jsonDecodeError) := by
  refine ⟨rfl, by decide, ?_⟩
  intro env cfg totalDays day st stW pts hrw
  have h := processDay_dayError env cfg totalDays day st stW pts
    ErrKind.jsonDecodeError hrw
  exact ⟨h.1, h.2.1, h.2.2.2.1, h.2.2.2.2.2⟩

/-- C5 amended witness: the day-abort behavior of a top-level parse error at a
    concrete input. -/
theorem c5_amended_witness :
    (processDay envBadJsonW0 (cfgRange 0 0) 1 0 (initPassState tracker_init)).2 =
      DayExit.nextDay ∧
    (processDay envBadJsonW0 (cfgRange 0 0) 1 0
        (initPassState tracker_init)).1.tracker.completed = ∅ := by
  have h := c5_amended.2.2 envBadJsonW0 (cfgRange 0 0) 1 0
    (initPassState tracker_init)
    { initPassState tracker_init with checks := 1, queries := [(0, 0, 1)] } 0 rfl
  exact ⟨h.1, h.2.1⟩

/-- C1 amended: the consecutive network-failure counter is reset by any
    successful window but is incremented once per day that fails with a
    transport error, because the first failing window aborts its whole day;
    at three such consecutive days the pass stops early with the phone-lost
    flag and the in-progress day not completed.  In the claimed one-day
    scenario (windows 1 and 2 succeed, window 3 times out on its 3 attempts)
    the counter only reaches 1 and the pass ends with network_lost = false;
    three consecutive failing days do abort the pass, and a successful window
    between failing days resets the counter so that two further failures do
    not abort. -/
theorem c1_amended :
    (∀ (env : QueryEnv) (cfg : PassConfig) (totalDays day : Nat)
        (st stW : PassState) (pts : Nat),
      runWindows env cfg day st 0 windowIdxs = (stW, pts, WindowExit.netErrorExit) →
      (processDay env cfg totalDays day st).1.consecutive = stW.consecutive + 1 ∧
      (processDay env cfg totalDays day st).1.tracker.completed =
        st.tracker.completed ∧
      (3 ≤ stW.consecutive + 1 →
        (processDay env cfg totalDays day st).2 = DayExit.stopPass ∧
        (processDay env cfg totalDays day st).1.phoneLost = true) ∧
      (stW.consecutive + 1 < 3 →
        (processDay env cfg totalDays day st).2 = DayExit.nextDay ∧
        (processDay env cfg totalDays day st).1.phoneLost = st.phoneLost)) ∧
    ((import_pass envC1 (cfgRange 0 0) tracker_init).consecutive = 1 ∧
     (import_pass envC1 (cfgRange 0 0) tracker_init).phoneLost = false) ∧
    ((import_pass envAllFailButDay0 (cfgRange 0 3) tracker_init).phoneLost = true ∧
     (import_pass envAllFailButDay0 (cfgRange 0 3) tracker_init).consecutive = 3 ∧
     (import_pass envAllFailButDay0 (cfgRange 0 3) tracker_init).queries =
       [(3, 0, 3), (2, 0, 3), (1, 0, 3)] ∧
     (import_pass envAllFailButDay0 (cfgRange 0 3) tracker_init).daysImported = 0 ∧
     (import_pass envAllFailButDay0 (cfgRange 0 3) tracker_init).tracker.completed =
       ∅) ∧
    ((import_pass envResetDemo (cfgRange 0 3) tracker_init).phoneLost = false ∧
     (import_pass envResetDemo (cfgRange 0 3) tracker_init).consecutive = 2 ∧
     (import_pass envResetDemo (cfgRange 0 3) tracker_init).queries =
       [(3, 0, 3), (2, 0, 3), (1, 0, 1), (1, 1, 3), (0, 0, 3)]) := by
  refine ⟨?_, by decide, by decide, by decide⟩
  intro env cfg totalDays day st stW pts hrw
  have h := processDay_netError env cfg totalDays day st stW pts hrw
  exact ⟨h.1, h.2.1, h.2.2.2.1, h.2.2.2.2⟩

/-- C1 amended witness: with the counter already at 2, one more transport-lost
    day stops the pass with the phone-lost flag and a counter of 3. -/
theorem c1_amended_witness :
    (processDay envAllTransport (cfgRange 0 0) 1 0 stCons2).2 = DayExit.stopPass ∧
    (processDay envAllTransport (cfgRange 0 0) 1 0 stCons2).1.phoneLost = true ∧
    (processDay envAllTransport (cfgRange 0 0) 1 0 stCons2).1.consecutive = 3 := by
  have h := c1_amended.1 envAllTransport (cfgRange 0 0) 1 0 stCons2
    { stCons2 with checks := 1, queries := [(0, 0, 3)] } 0 rfl
  exact ⟨(h.2.2.1 (by decide)).1, (h.2.2.1 (by decide)).2, h.1⟩
